import Mathlib

/-!
Shallow embedding of the glide state machine of `AITPCharacter`
(ITPCharacter.cpp / ITPCharacter.h): the movement-parameter snapshot,
the ground-clearance probe, the glide state machine
(StartGliding / StopGliding / CanStartGliding) and the per-tick
descent integrator (Tick / DescendPlayer), together with the Move
input handler.  Engine floats are modelled as exact rationals; the
engine's world (line trace) and the character-movement component are
modelled explicitly.
-/

namespace ITP

/-- A 3D vector (engine FVector) with exact rational components. -/
structure Vec3 where
  x : ℚ
  y : ℚ
  z : ℚ
deriving DecidableEq

/-- A 2D vector (engine FVector2D). -/
structure Vec2 where
  x : ℚ
  y : ℚ
deriving DecidableEq

/-- An engine FRotator (pitch, yaw, roll). -/
structure Rotator where
  pitch : ℚ
  yaw : ℚ
  roll : ℚ
deriving DecidableEq

/-- Componentwise vector addition (FVector operator+). -/
def vadd (a b : Vec3) : Vec3 :=
  ⟨a.x + b.x, a.y + b.y, a.z + b.z⟩

/-- Scalar multiplication of a vector (FVector operator*). -/
def vscale (c : Vec3) (k : ℚ) : Vec3 :=
  ⟨c.x * k, c.y * k, c.z * k⟩

/-- The slice of the engine's UCharacterMovementComponent that
`AITPCharacter` reads and writes: the five movement tunables, the raw
velocity vector, and the result of the IsFalling() query. -/
structure CharacterMovement where
  GravityScale : ℚ
  MaxWalkSpeed : ℚ
  BrakingDecelerationFalling : ℚ
  MaxAcceleration : ℚ
  AirControl : ℚ
  Velocity : Vec3
  isFalling : Bool
deriving DecidableEq

/-- State of one `AITPCharacter` instance: the glide fields declared in
ITPCharacter.h (bIsGliding, CurrentVelocity, the five original*
snapshot fields, delta) together with the movement component and the
actor transform data the ground-clearance probe reads.
`snapshotWritten` is a ghost flag used only to state the snapshot
validity invariant: it is set by RecordOriginalSettings and cleared
exactly at a Grounded-to-Gliding transition, so it reads "the snapshot
has been written at least once since the most recent
Grounded-to-Gliding transition". -/
structure CharacterState where
  movement : CharacterMovement
  bIsGliding : Bool
  CurrentVelocity : Vec3
  originalGravityScale : ℚ
  originalWalkingSpeed : ℚ
  originalDeceleration : ℚ
  originalAcceleration : ℚ
  originalAirControl : ℚ
  delta : ℚ
  actorLocation : Vec3
  actorUpVector : Vec3
  snapshotWritten : Bool
deriving DecidableEq

/-- The world as seen by the probe: whether a line trace on channel
ECC_Visibility from a start point to an end point, ignoring the
character itself, reports a blocking hit. -/
structure World where
  lineTraceBlocked : Vec3 → Vec3 → Bool

/-- descendingRate, default 300 (ITPCharacter.h). -/
def descendingRate : ℚ := 300

/-- minimumHeight, default 50 (ITPCharacter.h). -/
def minimumHeight : ℚ := 50

/-- TraceStart of CanStartGliding: GetActorLocation(). -/
def traceStart (s : CharacterState) : Vec3 :=
  s.actorLocation

/-- TraceEnd of CanStartGliding:
GetActorLocation() + GetActorUpVector() * minimumHeight * -1. -/
def traceEnd (s : CharacterState) : Vec3 :=
  vadd s.actorLocation (vscale (vscale s.actorUpVector minimumHeight) (-1))

/-- AITPCharacter::CanStartGliding.  The line trace and the IsFalling()
query are reads; the C++ function writes no member of the character
(the debug line it draws is diagnostic only), which the embedding
reflects by returning a plain Bool. -/
def CanStartGliding (w : World) (s : CharacterState) : Bool :=
  if !(w.lineTraceBlocked (traceStart s) (traceEnd s)) && s.movement.isFalling then true
  else false

/-- AITPCharacter::RecordOriginalSettings.  Also sets the ghost flag
`snapshotWritten`. -/
def RecordOriginalSettings (s : CharacterState) : CharacterState :=
  { s with
    originalGravityScale := s.movement.GravityScale
    originalWalkingSpeed := s.movement.MaxWalkSpeed
    originalDeceleration := s.movement.BrakingDecelerationFalling
    originalAcceleration := s.movement.MaxAcceleration
    originalAirControl := s.movement.AirControl
    snapshotWritten := true }

/-- AITPCharacter::ApplyOriginalSettings. -/
def ApplyOriginalSettings (s : CharacterState) : CharacterState :=
  { s with movement := { s.movement with
      GravityScale := s.originalGravityScale
      MaxWalkSpeed := s.originalWalkingSpeed
      BrakingDecelerationFalling := s.originalDeceleration
      MaxAcceleration := s.originalAcceleration
      AirControl := s.originalAirControl } }

/-- AITPCharacter::StartGliding.  Guard: !bIsGliding && CanStartGliding().
Body order as in the source: capture Velocity into CurrentVelocity, set
bIsGliding (the Grounded-to-Gliding transition, where the ghost flag is
cleared), RecordOriginalSettings, then overwrite the five tunables with
the glide-mode constants. -/
def StartGliding (w : World) (s : CharacterState) : CharacterState :=
  if !s.bIsGliding && CanStartGliding w s then
    let s1 := { s with CurrentVelocity := s.movement.Velocity }
    let s2 := { s1 with bIsGliding := true, snapshotWritten := false }
    let s3 := RecordOriginalSettings s2
    { s3 with movement := { s3.movement with
        GravityScale := 0
        AirControl := 0.9
        BrakingDecelerationFalling := 350
        MaxAcceleration := 1024
        MaxWalkSpeed := 600 } }
  else s

/-- AITPCharacter::StopGliding: ApplyOriginalSettings(); bIsGliding = false. -/
def StopGliding (s : CharacterState) : CharacterState :=
  { ApplyOriginalSettings s with bIsGliding := false }

/-- UKismetMathLibrary::FInterpEaseInOut (FMath::InterpEaseInOut):
Lerp(A, B, m) with m = 0.5*(2*Alpha)^Exp for Alpha < 0.5 and
m = 1 - 0.5*(2*(1-Alpha))^Exp otherwise.  The exponent is a natural
number here because every call site passes the integer-valued 3.0. -/
def FInterpEaseInOut (A B Alpha : ℚ) (Exp : ℕ) : ℚ :=
  let ModifiedAlpha :=
    if Alpha < 1/2 then (2 * Alpha) ^ Exp / 2
    else 1 - (2 * (1 - Alpha)) ^ Exp / 2
  A + (B - A) * ModifiedAlpha

/-- AITPCharacter::DescendPlayer.  Note the source interpolates
CurrentVelocity.Z toward +descendingRate while the guard compares
against -descendingRate, and the engine velocity Z is pinned to
-descendingRate. -/
def DescendPlayer (s : CharacterState) : CharacterState :=
  if s.CurrentVelocity.z ≠ descendingRate * (-1) ∧ s.bIsGliding = true then
    { s with
      CurrentVelocity :=
        { s.CurrentVelocity with
          z := FInterpEaseInOut s.CurrentVelocity.z descendingRate s.delta 3 }
      movement := { s.movement with
        Velocity := { s.movement.Velocity with z := descendingRate * (-1) } } }
  else s

/-- AITPCharacter::Tick: store deltaSeconds in delta, then DescendPlayer. -/
def Tick (deltaSeconds : ℚ) (s : CharacterState) : CharacterState :=
  DescendPlayer { s with delta := deltaSeconds }

/-- AITPCharacter::Move.  The engine geometry
FRotationMatrix(YawRotation).GetUnitAxis(EAxis::Y) is abstracted as the
function argument unitAxisY applied to the yaw-only rotator built from
the control rotation.  The result models the movement-input
contribution handed to AddMovementInput: a (world direction, scale)
pair, or none when Controller == nullptr. -/
def Move (unitAxisY : Rotator → Vec3) (controller : Option Rotator) (value : Vec2) :
    Option (Vec3 × ℚ) :=
  match controller with
  | none => none
  | some rotation =>
    let yawRotation : Rotator := ⟨0, rotation.yaw, 0⟩
    let rightDirection := unitAxisY yawRotation
    some (rightDirection, value.x)

/-- The five live movement tunables, as one tuple. -/
def Tunables (s : CharacterState) : ℚ × ℚ × ℚ × ℚ × ℚ :=
  (s.movement.GravityScale, s.movement.MaxWalkSpeed,
   s.movement.BrakingDecelerationFalling, s.movement.MaxAcceleration,
   s.movement.AirControl)

/-- The movement-parameter snapshot (the five original* fields), as one
tuple. -/
def Snapshot (s : CharacterState) : ℚ × ℚ × ℚ × ℚ × ℚ :=
  (s.originalGravityScale, s.originalWalkingSpeed, s.originalDeceleration,
   s.originalAcceleration, s.originalAirControl)

/-- An update the environment (engine, out of scope) may perform between
frames: move the actor, change the IsFalling flag, and rewrite the raw
velocity.  While gliding, GravityScale is pinned to 0 and the movement
input only feeds horizontal directions, so the engine integrator leaves
the vertical velocity component untouched; the update therefore
preserves Velocity.z exactly when bIsGliding. -/
structure EnvUpdate where
  loc : Vec3
  up : Vec3
  falling : Bool
  vel : Vec3
deriving DecidableEq

/-- Apply an environment update. -/
def EnvApply (e : EnvUpdate) (s : CharacterState) : CharacterState :=
  { s with
    actorLocation := e.loc
    actorUpVector := e.up
    movement := { s.movement with
      isFalling := e.falling
      Velocity := if s.bIsGliding then ⟨e.vel.x, e.vel.y, s.movement.Velocity.z⟩ else e.vel } }

/-- One step of the closed system: an input-triggered transition, a
simulation tick, or an environment update. -/
inductive Step : CharacterState → CharacterState → Prop
  | start (w : World) (s : CharacterState) : Step s (StartGliding w s)
  | stop (s : CharacterState) : Step s (StopGliding s)
  | tick (d : ℚ) (s : CharacterState) : Step s (Tick d s)
  | env (e : EnvUpdate) (s : CharacterState) : Step s (EnvApply e s)

/-- Initial states: grounded, never glided (bIsGliding = false is the
field initializer in ITPCharacter.h; the ghost flag starts false). -/
def Init (s : CharacterState) : Prop :=
  s.bIsGliding = false ∧ s.snapshotWritten = false

/-- Reachability from some initial state by any sequence of steps. -/
def Reachable (s : CharacterState) : Prop :=
  ∃ s0, Init s0 ∧ Relation.ReflTransGen Step s0 s

/-- The inductive invariant of the closed system: while gliding, either
the eased cache has not yet reached -descendingRate (so the next tick
will pin), or the engine vertical velocity is already exactly
-descendingRate; and the snapshot has been written since the last
Grounded-to-Gliding transition. -/
def GlideInv (s : CharacterState) : Prop :=
  s.bIsGliding = true →
    (s.CurrentVelocity.z ≠ descendingRate * (-1) ∨
      s.movement.Velocity.z = descendingRate * (-1)) ∧
    s.snapshotWritten = true

/-- `a` lies strictly between `lo` and `hi` (in either order). -/
def StrictlyBetween (a lo hi : ℚ) : Prop :=
  (lo < a ∧ a < hi) ∨ (hi < a ∧ a < lo)

instance (a lo hi : ℚ) : Decidable (StrictlyBetween a lo hi) := by
  unfold StrictlyBetween
  infer_instance

/-- A sample movement component: tunables as set by the
AITPCharacter constructor (GravityScale left at the engine default 1),
falling with velocity (0, 0, -900). -/
def demoMovement : CharacterMovement :=
  ⟨1, 500, 1500, 2048, 7/20, ⟨0, 0, -900⟩, true⟩

/-- A sample grounded-state character: airborne (falling), never glided. -/
def demoState : CharacterState :=
  { movement := demoMovement
    bIsGliding := false
    CurrentVelocity := ⟨0, 0, 0⟩
    originalGravityScale := 0
    originalWalkingSpeed := 0
    originalDeceleration := 0
    originalAcceleration := 0
    originalAirControl := 0
    delta := 0
    actorLocation := ⟨0, 0, 100⟩
    actorUpVector := ⟨0, 0, 1⟩
    snapshotWritten := false }

/-- A world in which every line trace comes back clear. -/
def clearWorld : World :=
  ⟨fun _ _ => false⟩

/-- A gliding-state character whose eased vertical cache sits at 0. -/
def glideZ0State : CharacterState :=
  { demoState with bIsGliding := true, CurrentVelocity := ⟨0, 0, 0⟩, snapshotWritten := true }

/-- C1: snapshot round-trip.  From Grounded with CanStartGliding true,
StartGliding followed immediately by StopGliding leaves all five
movement tunables exactly as they started. -/
theorem snapshot_roundTrip (w : World) (s : CharacterState)
    (hg : s.bIsGliding = false) (hc : CanStartGliding w s = true) :
    Tunables (StopGliding (StartGliding w s)) = Tunables s := by
  simp [StartGliding, hg, hc, StopGliding, ApplyOriginalSettings,
    RecordOriginalSettings, Tunables]

/-- Witness for C1 at a concrete grounded, airborne, probe-clear state. -/
theorem snapshot_roundTrip_witness :
    Tunables (StopGliding (StartGliding clearWorld demoState)) = Tunables demoState :=
  snapshot_roundTrip clearWorld demoState rfl (by decide)

/-- C4: transition gating.  From Grounded, StartGliding is a complete
no-op (the whole state, hence tunables, CurrentVelocity and snapshot,
is unchanged) whenever the probe is blocked or the character is not
falling; in the probe-clear, airborne case it transitions to Gliding. -/
theorem start_gliding_gating (w : World) (s : CharacterState)
    (hg : s.bIsGliding = false) :
    (w.lineTraceBlocked (traceStart s) (traceEnd s) = true ∨
        s.movement.isFalling = false → StartGliding w s = s) ∧
    (w.lineTraceBlocked (traceStart s) (traceEnd s) = false ∧
        s.movement.isFalling = true → (StartGliding w s).bIsGliding = true) := by
  constructor
  · intro h
    have hc : CanStartGliding w s = false := by
      cases h with
      | inl h => simp [CanStartGliding, h]
      | inr h => simp [CanStartGliding, h]
    simp [StartGliding, hc]
  · rintro ⟨h1, h2⟩
    have hc : CanStartGliding w s = true := by
      simp [CanStartGliding, h1, h2]
    simp [StartGliding, hg, hc, RecordOriginalSettings]

/-- Witness for C4 in the probe-clear, airborne case. -/
theorem start_gliding_gating_witness :
    (StartGliding clearWorld demoState).bIsGliding = true :=
  (start_gliding_gating clearWorld demoState rfl).2 ⟨rfl, rfl⟩

/-- C5: CanStartGliding returns true iff the downward line trace of
length minimumHeight from the actor location (ignoring the character,
as the oracle does by construction) reports no blocking hit and the
movement component reports falling.  The embedding returns a plain
Bool because the C++ function writes no glide state. -/
theorem canStartGliding_iff (w : World) (s : CharacterState) :
    CanStartGliding w s = true ↔
      w.lineTraceBlocked s.actorLocation
          (vadd s.actorLocation (vscale (vscale s.actorUpVector minimumHeight) (-1))) = false ∧
        s.movement.isFalling = true := by
  simp [CanStartGliding, traceStart, traceEnd, Bool.and_eq_true, Bool.not_eq_true']

/-- C6: entry effect of StartGliding from Grounded with the
precondition true: the engine velocity is captured into
CurrentVelocity, the five tunables are captured into the snapshot, the
tunables are overwritten with the glide-mode constants, and the state
becomes Gliding. -/
theorem start_gliding_entry_effect (w : World) (s : CharacterState)
    (hg : s.bIsGliding = false) (hc : CanStartGliding w s = true) :
    (StartGliding w s).CurrentVelocity = s.movement.Velocity ∧
    Snapshot (StartGliding w s) = Tunables s ∧
    Tunables (StartGliding w s) = (0, 600, 350, 1024, 0.9) ∧
    (StartGliding w s).bIsGliding = true := by
  simp [StartGliding, hg, hc, RecordOriginalSettings, Snapshot, Tunables]

/-- Witness for C6 at a concrete state. -/
theorem start_gliding_entry_effect_witness :
    (StartGliding clearWorld demoState).CurrentVelocity = demoState.movement.Velocity ∧
    Snapshot (StartGliding clearWorld demoState) = Tunables demoState ∧
    Tunables (StartGliding clearWorld demoState) = (0, 600, 350, 1024, 0.9) ∧
    (StartGliding clearWorld demoState).bIsGliding = true :=
  start_gliding_entry_effect clearWorld demoState rfl (by decide)

/-- C7: StopGliding is idempotent on every state (the second call
rewrites the same snapshot values and re-clears the flag), and after a
glide episode an extra StopGliding still leaves the tunables at their
pre-glide values. -/
theorem stop_gliding_idempotent (w : World) (s t : CharacterState) :
    StopGliding (StopGliding t) = StopGliding t ∧
    (s.bIsGliding = false → CanStartGliding w s = true →
      Tunables (StopGliding (StopGliding (StartGliding w s))) = Tunables s) := by
  constructor
  · rfl
  · intro hg hc
    simp [StartGliding, hg, hc, StopGliding, ApplyOriginalSettings,
      RecordOriginalSettings, Tunables]

/-- Witness for C7 at concrete states. -/
theorem stop_gliding_idempotent_witness :
    StopGliding (StopGliding glideZ0State) = StopGliding glideZ0State ∧
    Tunables (StopGliding (StopGliding (StartGliding clearWorld demoState))) =
      Tunables demoState :=
  ⟨(stop_gliding_idempotent clearWorld demoState glideZ0State).1,
   (stop_gliding_idempotent clearWorld demoState glideZ0State).2 rfl (by decide)⟩

/-- C8: frame condition of the descent update.  DescendPlayer is the
identity when not gliding and when CurrentVelocity.z is already
-descendingRate, and in every case it leaves the five tunables, the
snapshot and the glide flag untouched. -/
theorem descend_frame_condition (s : CharacterState) :
    (s.bIsGliding = false → DescendPlayer s = s) ∧
    (s.CurrentVelocity.z = descendingRate * (-1) → DescendPlayer s = s) ∧
    Tunables (DescendPlayer s) = Tunables s ∧
    Snapshot (DescendPlayer s) = Snapshot s ∧
    (DescendPlayer s).bIsGliding = s.bIsGliding := by
  refine ⟨?_, ?_, ?_, ?_, ?_⟩
  · intro h
    simp [DescendPlayer, h]
  · intro h
    simp [DescendPlayer, h]
  · simp only [DescendPlayer]
    split <;> rfl
  · simp only [DescendPlayer]
    split <;> rfl
  · simp only [DescendPlayer]
    split <;> rfl

/-- Witness for C8: identity at a grounded state, tunables untouched at
a gliding state. -/
theorem descend_frame_condition_witness :
    DescendPlayer demoState = demoState ∧
    Tunables (DescendPlayer glideZ0State) = Tunables glideZ0State :=
  ⟨(descend_frame_condition demoState).1 rfl,
   (descend_frame_condition glideZ0State).2.2.1⟩

/-- C10: the Move handler ignores the Y component of the 2D move-axis
input: two inputs with the same X produce the identical movement-input
contribution, for any controller and any engine right-axis geometry. -/
theorem move_ignores_y (f : Rotator → Vec3) (c : Option Rotator) (x y1 y2 : ℚ) :
    Move f c ⟨x, y1⟩ = Move f c ⟨x, y2⟩ := by
  cases c <;> rfl

/-- Characterisation of a successful StartGliding: the guard passes and
the body runs in source order. -/
theorem startGliding_eq {w : World} {s : CharacterState}
    (hb : s.bIsGliding = false) (hc : CanStartGliding w s = true) :
    StartGliding w s =
      { s with
        movement := { s.movement with
          GravityScale := 0
          AirControl := 0.9
          BrakingDecelerationFalling := 350
          MaxAcceleration := 1024
          MaxWalkSpeed := 600 }
        bIsGliding := true
        CurrentVelocity := s.movement.Velocity
        originalGravityScale := s.movement.GravityScale
        originalWalkingSpeed := s.movement.MaxWalkSpeed
        originalDeceleration := s.movement.BrakingDecelerationFalling
        originalAcceleration := s.movement.MaxAcceleration
        originalAirControl := s.movement.AirControl
        snapshotWritten := true } := by
  simp [StartGliding, hb, hc, RecordOriginalSettings]

/-- StartGliding is the identity when the guard fails. -/
theorem startGliding_id {w : World} {s : CharacterState}
    (h : s.bIsGliding = true ∨ CanStartGliding w s = false) :
    StartGliding w s = s := by
  cases h with
  | inl h => simp [StartGliding, h]
  | inr h => simp [StartGliding, h]

/-- Characterisation of a firing DescendPlayer. -/
theorem descendPlayer_eq {s : CharacterState}
    (hz : s.CurrentVelocity.z ≠ descendingRate * (-1)) (hb : s.bIsGliding = true) :
    DescendPlayer s =
      { s with
        CurrentVelocity := { s.CurrentVelocity with
          z := FInterpEaseInOut s.CurrentVelocity.z descendingRate s.delta 3 }
        movement := { s.movement with
          Velocity := { s.movement.Velocity with z := descendingRate * (-1) } } } := by
  simp only [DescendPlayer]
  rw [if_pos ⟨hz, hb⟩]

/-- DescendPlayer is the identity when its guard fails. -/
theorem descendPlayer_id {s : CharacterState}
    (h : s.CurrentVelocity.z = descendingRate * (-1) ∨ s.bIsGliding = false) :
    DescendPlayer s = s := by
  simp only [DescendPlayer]
  rw [if_neg]
  rintro ⟨h1, h2⟩
  cases h with
  | inl h => exact h1 h
  | inr h => rw [h] at h2; cases h2

/-- Every step of the closed system preserves the glide invariant. -/
theorem step_glideInv {s t : CharacterState} (hInv : GlideInv s) (hst : Step s t) :
    GlideInv t := by
  cases hst with
  | start w s =>
    by_cases hb : s.bIsGliding = false
    · by_cases hc : CanStartGliding w s = true
      · rw [startGliding_eq hb hc]
        intro _
        exact ⟨ne_or_eq _ _, rfl⟩
      · rw [startGliding_id (Or.inr (by simpa using hc))]
        exact hInv
    · rw [startGliding_id (Or.inl (by simpa using hb))]
      exact hInv
  | stop s =>
    intro hg
    rw [show (StopGliding s).bIsGliding = false from rfl] at hg
    exact Bool.noConfusion hg
  | tick d s =>
    by_cases hz : s.CurrentVelocity.z = descendingRate * (-1)
    · have hid : Tick d s = { s with delta := d } := by
        unfold Tick
        exact descendPlayer_id (Or.inl hz)
      rw [hid]
      exact hInv
    · by_cases hb : s.bIsGliding = true
      · have heq := descendPlayer_eq (s := { s with delta := d }) hz hb
        intro _
        unfold Tick
        rw [heq]
        exact ⟨Or.inr rfl, (hInv hb).2⟩
      · have hid : Tick d s = { s with delta := d } := by
          unfold Tick
          exact descendPlayer_id (Or.inr (by simpa using hb))
        rw [hid]
        exact hInv
  | env e s =>
    intro hg
    have hb : s.bIsGliding = true := hg
    have h2 := hInv hb
    have hv : (EnvApply e s).movement.Velocity.z = s.movement.Velocity.z := by
      simp [EnvApply, hb]
    refine ⟨?_, h2.2⟩
    rw [hv]
    exact h2.1

/-- Every reachable state satisfies the glide invariant. -/
theorem reachable_glideInv {s : CharacterState} (h : Reachable s) : GlideInv s := by
  obtain ⟨s0, hInit, hsteps⟩ := h
  induction hsteps with
  | refl =>
    intro hg
    rw [hInit.1] at hg
    cases hg
  | tail _ hbc ih => exact step_glideInv ih hbc

/-- C2: pinning.  In every reachable state that is Gliding, a tick
leaves the engine's authoritative vertical velocity exactly at
-descendingRate: either the guard fires and pins it, or the eased cache
already equals -descendingRate, in which case the invariant shows the
engine velocity was pinned before and is left untouched. -/
theorem gliding_tick_pins_velocity (s : CharacterState) (d : ℚ)
    (hr : Reachable s) (hg : s.bIsGliding = true) :
    (Tick d s).movement.Velocity.z = descendingRate * (-1) := by
  have hInv := reachable_glideInv hr hg
  by_cases h : s.CurrentVelocity.z = descendingRate * (-1)
  · have hv : s.movement.Velocity.z = descendingRate * (-1) :=
      hInv.1.resolve_left (not_not_intro h)
    have hid : Tick d s = { s with delta := d } := by
      unfold Tick
      exact descendPlayer_id (Or.inl h)
    rw [hid]
    exact hv
  · have heq := descendPlayer_eq (s := { s with delta := d }) h hg
    unfold Tick
    rw [heq]

/-- Witness for C2: start gliding from the demo state, tick once. -/
theorem gliding_tick_pins_velocity_witness :
    (Tick (1/2) (StartGliding clearWorld demoState)).movement.Velocity.z =
      descendingRate * (-1) :=
  gliding_tick_pins_velocity (StartGliding clearWorld demoState) (1/2)
    ⟨demoState, ⟨rfl, rfl⟩, Relation.ReflTransGen.single (Step.start clearWorld demoState)⟩
    (by decide)

/-- C9: snapshot validity.  In every reachable state that is Gliding,
the snapshot has been written at least once since the most recent
Grounded-to-Gliding transition (the ghost flag `snapshotWritten` is
cleared exactly at that transition and set by RecordOriginalSettings). -/
theorem gliding_snapshot_valid (s : CharacterState)
    (hr : Reachable s) (hg : s.bIsGliding = true) :
    s.snapshotWritten = true :=
  (reachable_glideInv hr hg).2

/-- Witness for C9: the state reached by one StartGliding. -/
theorem gliding_snapshot_valid_witness :
    (StartGliding clearWorld demoState).snapshotWritten = true :=
  gliding_snapshot_valid (StartGliding clearWorld demoState)
    ⟨demoState, ⟨rfl, rfl⟩, Relation.ReflTransGen.single (Step.start clearWorld demoState)⟩
    (by decide)

/-- For an elapsed time strictly between 0 and 1, the modified alpha of
the ease-in-out curve with exponent 3 lies strictly between 0 and 1. -/
theorem easeInOut_modAlpha_bounds {d : ℚ} (h0 : 0 < d) (h1 : d < 1) :
    0 < (if d < 1/2 then (2*d)^(3:ℕ)/2 else 1 - (2*(1-d))^(3:ℕ)/2) ∧
    (if d < 1/2 then (2*d)^(3:ℕ)/2 else 1 - (2*(1-d))^(3:ℕ)/2) < 1 := by
  by_cases hd : d < 1/2
  · rw [if_pos hd]
    have key : 0 < (1 - 2*d) * (1 + 2*d + 4*d^2) :=
      mul_pos (by linarith) (by nlinarith [sq_nonneg d])
    constructor
    · positivity
    · nlinarith [key]
  · rw [if_neg hd]
    have he : 0 < 1 - d := by linarith
    have hd2 : (1:ℚ)/2 ≤ d := le_of_not_lt hd
    have hpos : 0 < (2*(1-d))^(3:ℕ) := pow_pos (by linarith) 3
    have key : 0 ≤ (1 - 2*(1-d)) * (1 + 2*(1-d) + 4*(1-d)^2) :=
      mul_nonneg (by linarith) (by nlinarith [sq_nonneg (1-d)])
    constructor
    · nlinarith [key]
    · nlinarith [hpos]

/-- FInterpEaseInOut with exponent 3 and an elapsed time in (0, 1)
lands strictly between its two endpoints. -/
theorem easeInOut_strictlyBetween {v b d : ℚ} (hne : v ≠ b) (h0 : 0 < d) (h1 : d < 1) :
    StrictlyBetween (FInterpEaseInOut v b d 3) v b := by
  obtain ⟨hm0, hm1⟩ := easeInOut_modAlpha_bounds h0 h1
  have hval : FInterpEaseInOut v b d 3 =
      v + (b - v) * (if d < 1/2 then (2*d)^(3:ℕ)/2 else 1 - (2*(1-d))^(3:ℕ)/2) := by
    simp only [FInterpEaseInOut]
  simp only [StrictlyBetween]
  rw [hval]
  rcases lt_or_gt_of_ne hne with h | h
  · exact Or.inl ⟨by nlinarith, by nlinarith⟩
  · exact Or.inr ⟨by nlinarith, by nlinarith⟩

/-- Counterexample to C3 as stated: a gliding state with
CurrentVelocity.z = 0 (which differs from -descendingRate, so the
update fires) and a tick of elapsed time 1/2 produce an eased value of
150, which does not lie between the predecessor 0 and -descendingRate:
the source interpolates toward +descendingRate, not -descendingRate. -/
theorem descend_toward_neg_rate_cex :
    glideZ0State.bIsGliding = true ∧
    glideZ0State.CurrentVelocity.z ≠ descendingRate * (-1) ∧
    (0:ℚ) < 1/2 ∧
    (Tick (1/2) glideZ0State).CurrentVelocity.z = 150 ∧
    ¬ StrictlyBetween ((Tick (1/2) glideZ0State).CurrentVelocity.z)
        glideZ0State.CurrentVelocity.z (descendingRate * (-1)) := by
  refine ⟨rfl, ?_, by norm_num, ?_, ?_⟩
  · norm_num [glideZ0State, demoState, descendingRate]
  · norm_num [Tick, DescendPlayer, FInterpEaseInOut, descendingRate,
      glideZ0State, demoState, demoMovement]
  · norm_num [StrictlyBetween, Tick, DescendPlayer, FInterpEaseInOut, descendingRate,
      glideZ0State, demoState, demoMovement]

/-- C3 amended: while Gliding, with CurrentVelocity.z different from
-descendingRate (so the update fires) and from +descendingRate, a tick
whose elapsed time lies strictly between 0 and 1 moves
CurrentVelocity.z strictly between its previous value and
+descendingRate: the easing converges monotonically toward
+descendingRate, the positive rate, with no overshoot. -/
theorem descend_eases_toward_pos_rate (s : CharacterState) (d : ℚ)
    (hg : s.bIsGliding = true)
    (hz : s.CurrentVelocity.z ≠ descendingRate * (-1))
    (hz2 : s.CurrentVelocity.z ≠ descendingRate)
    (h0 : 0 < d) (h1 : d < 1) :
    StrictlyBetween ((Tick d s).CurrentVelocity.z) s.CurrentVelocity.z descendingRate := by
  have heq := descendPlayer_eq (s := { s with delta := d }) hz hg
  have hval : (Tick d s).CurrentVelocity.z =
      FInterpEaseInOut s.CurrentVelocity.z descendingRate d 3 := by
    unfold Tick
    rw [heq]
  rw [hval]
  exact easeInOut_strictlyBetween hz2 h0 h1

/-- Witness for the amended C3 at the concrete gliding state with
CurrentVelocity.z = 0 and a tick of 1/2: the new value 150 lies
strictly between 0 and +descendingRate = 300. -/
theorem descend_eases_toward_pos_rate_witness :
    StrictlyBetween ((Tick (1/2) glideZ0State).CurrentVelocity.z)
      glideZ0State.CurrentVelocity.z descendingRate :=
  descend_eases_toward_pos_rate glideZ0State (1/2) rfl
    (by norm_num [glideZ0State, demoState, descendingRate])
    (by norm_num [glideZ0State, demoState, descendingRate])
    (by norm_num) (by norm_num)

end ITP
